import Mathlib

/-!
Verification of `src/databricks/labs/ucx/workspace_access/secrets.py`
(`SecretScopesSupport`): crawling secret-scope ACLs into permission records,
remapping them under a group-migration state, and the put-and-verify retry
loop (`_inflight_check`).

Modelling conventions:
- The SDK enum `workspace.AclPermission` and dataclass `workspace.AclItem`
  are embedded as an inductive and a structure.  `AclItem.as_dict` /
  `AclItem.from_dict` are the serialization used by the module; the JSON
  text layer (`json.dumps` / `json.loads` of a list of flat string dicts)
  is the Python standard library, an external collaborator guaranteed to
  round-trip, so the record's `raw` field is embedded as the parsed JSON
  value: a list of `AclDict` objects.
- The workspace client is a pure snapshot (`WorkspaceClientSecrets`); the
  deferred crawler tasks are therefore represented by the records they
  produce when run.
- `_inflight_check` reads the live ACL once per iteration; the succession
  of reads is embedded as a function from the poll index to the ACL list
  observed at that poll.  The randomized sleep and the wall clock have no
  effect on the control flow and are not modelled.  The function returns
  the outcome (normal return or the raised `ValueError` message) together
  with the number of polls performed.
-/

/-- The SDK enum `workspace.AclPermission` (values `READ`, `WRITE`, `MANAGE`). -/
inductive AclPermission
  | READ
  | WRITE
  | MANAGE
  deriving DecidableEq, Repr

/-- The `.value` string of the enum member, written by `AclItem.as_dict`. -/
def AclPermission.value : AclPermission → String
  | .READ => "READ"
  | .WRITE => "WRITE"
  | .MANAGE => "MANAGE"

/-- Parse an enum member from its `.value` string, as the SDK's
`from_dict` enum lookup does; unknown strings have no member. -/
def AclPermission.ofValue (s : String) : Option AclPermission :=
  if s = "READ" then some .READ
  else if s = "WRITE" then some .WRITE
  else if s = "MANAGE" then some .MANAGE
  else none

/-- Python `str()` of the enum member, as interpolated into error messages. -/
def AclPermission.pyStr : AclPermission → String
  | .READ => "AclPermission.READ"
  | .WRITE => "AclPermission.WRITE"
  | .MANAGE => "AclPermission.MANAGE"

instance : ToString AclPermission :=
  ⟨AclPermission.pyStr⟩

/-- The SDK dataclass `workspace.AclItem`: one ACL entry. -/
structure AclItem where
  principal : String
  permission : AclPermission
  deriving DecidableEq, Repr

/-- One element of the parsed JSON array stored in a record's `raw` field:
a flat object with a `principal` string and a `permission` string. -/
structure AclDict where
  principal : String
  permission : String
  deriving DecidableEq, Repr

/-- `AclItem.as_dict`: serialize one entry to its JSON object. -/
def AclItem.as_dict (a : AclItem) : AclDict :=
  { principal := a.principal, permission := a.permission.value }

/-- `AclItem.from_dict`: rebuild an entry from its JSON object.  The
principal is taken verbatim; the permission string goes through the enum
lookup.  A dict whose permission string is not an enum value does not
yield a well-formed entry (the spec treats such corrupt payloads as a
fatal precondition violation). -/
def AclItem.from_dict (d : AclDict) : Option AclItem :=
  match AclPermission.ofValue d.permission with
  | some p => some { principal := d.principal, permission := p }
  | none => none

/-- The `Permissions` record produced by the crawler and consumed by the
applier; `raw` is the parsed JSON array behind the serialized payload. -/
structure Permissions where
  object_id : String
  object_type : String
  raw : List AclDict
  deriving DecidableEq, Repr

/-- A secret scope as returned by `list_scopes` (only its name is used). -/
structure SecretScope where
  name : String
  deriving DecidableEq, Repr

/-- Snapshot model of the workspace client's secrets API used by the
crawler: the scope listing and the per-scope ACL listing. -/
structure WorkspaceClientSecrets where
  list_scopes : List SecretScope
  list_acls : String → List AclItem

/-- The external `GroupMigrationState` collaborator, by its interface:
`is_in_scope(principal)` and `get_target_principal(principal, destination)`. -/
structure GroupMigrationState where
  is_in_scope : String → Bool
  get_target_principal : String → String → Option String

/-- Destination tag passed through to `get_target_principal`. -/
abbrev Destination := String

/-- `_crawler_task` (lines 28-34): fetch the scope's ACLs and wrap them as
a record with `object_type = "secrets"`, `object_id = scope.name`, and the
serialized entries in `raw`. -/
def crawler_task (ws : WorkspaceClientSecrets) (scope : SecretScope) : Permissions :=
  { object_id := scope.name
    object_type := "secrets"
    raw := (ws.list_acls scope.name).map AclItem.as_dict }

/-- `get_crawler_tasks` (lines 25-37): one task per listed scope, here
represented by the record each task produces when run. -/
def get_crawler_tasks (ws : WorkspaceClientSecrets) : List Permissions :=
  ws.list_scopes.map (crawler_task ws)

/-- Deserialization of a record's `raw` payload as the applier performs it
(line 46): `from_dict` on every element; a single malformed element makes
the whole payload malformed. -/
def deserialize_raw : List AclDict → Option (List AclItem)
  | [] => some []
  | d :: ds =>
    match AclItem.from_dict d, deserialize_raw ds with
    | some a, some rest => some (a :: rest)
    | _, _ => none

/-- `_is_item_relevant` (lines 66-72): scan the raw entries and report
whether any principal is in migration scope.  (`from_dict` keeps the
principal verbatim, so the scan reads it off the dict.) -/
def is_item_relevant (item : Permissions) (migration_state : GroupMigrationState) : Bool :=
  item.raw.any fun d => migration_state.is_in_scope d.principal

/-- One iteration of the remap loop (lines 49-57): out-of-scope entries
pass through unchanged; in-scope entries are dropped when no target
principal resolves, and otherwise rebuilt with the target principal and
the original permission. -/
def remap_entry (ms : GroupMigrationState) (dest : Destination) (acl : AclItem) :
    Option AclItem :=
  if ms.is_in_scope acl.principal then
    match ms.get_target_principal acl.principal dest with
    | none => none
    | some target_principal =>
      some { principal := target_principal, permission := acl.permission }
  else
    some acl

/-- `get_apply_task` (lines 42-64), represented by the list of ACL writes
the returned task issues in order (`none` when no task is returned).  The
relevance check runs first; then the payload is deserialized and remapped
entry by entry.  A malformed payload (a fatal precondition violation per
the spec) also yields no write list. -/
def get_apply_task (item : Permissions) (ms : GroupMigrationState) (dest : Destination) :
    Option (List AclItem) :=
  if is_item_relevant item ms then
    match deserialize_raw item.raw with
    | some acls => some (acls.filterMap (remap_entry ms dest))
    | none => none
  else
    none

/-- `secret_scope_permission` (lines 74-78): first matching principal's
permission in the listed ACLs, else `none`. -/
def secret_scope_permission (acls : List AclItem) (group_name : String) :
    Option AclPermission :=
  match acls.find? (fun acl => acl.principal == group_name) with
  | some acl => some acl.permission
  | none => none

/-- Message of the `ValueError` raised on a verification mismatch (lines 94-98). -/
def mismatch_msg (applied expected : AclPermission) : String :=
  s!"Applied permission {applied} is not equal to expected permission {expected}"

/-- Message of the `ValueError` raised on retry exhaustion (line 102). -/
def exhausted_msg (group_name scope_name : String) (num_retries : Nat) : String :=
  s!"Failed to apply permissions for {group_name} on scope {scope_name} in {num_retries} retries"

/-- Outcome of `_inflight_check`: a normal return or a raised error message. -/
inductive CheckOutcome
  | ok
  | error (msg : String)
  deriving DecidableEq, Repr

/-- The `while retries_left > 0` loop of `_inflight_check` (lines 86-103).
`poll i` is the permission read on the i-th poll; the second component of
the result counts the polls performed. -/
def inflight_go (poll : Nat → Option AclPermission) (scope_name group_name : String)
    (expected_permission : AclPermission) (num_retries : Nat) :
    Nat → Nat → CheckOutcome × Nat
  | 0, polls_done =>
    (CheckOutcome.error (exhausted_msg group_name scope_name num_retries), polls_done)
  | retries_left + 1, polls_done =>
    match poll polls_done with
    | some applied_permission =>
      if applied_permission = expected_permission then
        (CheckOutcome.ok, polls_done + 1)
      else
        (CheckOutcome.error (mismatch_msg applied_permission expected_permission),
          polls_done + 1)
    | none => inflight_go poll scope_name group_name expected_permission num_retries
        retries_left (polls_done + 1)

/-- `_inflight_check` (lines 80-103): poll the scope's ACL state up to
`num_retries` times (5 at every call site).  `acl_state i` is the ACL list
the workspace returns at the i-th read. -/
def inflight_check (acl_state : Nat → List AclItem) (scope_name group_name : String)
    (expected_permission : AclPermission) (num_retries : Nat) : CheckOutcome × Nat :=
  inflight_go (fun i => secret_scope_permission (acl_state i) group_name)
    scope_name group_name expected_permission num_retries num_retries 0

/- Concrete fixtures used by witnesses and counterexamples. -/

/-- Migration state of the spec's remap scenario: only `A` is in scope and
maps to `A2` for every destination. -/
def ms_c2 : GroupMigrationState where
  is_in_scope := fun p => p == "A"
  get_target_principal := fun p _ => if p == "A" then some "A2" else none

/-- Migration state with `A` in scope but no resolvable target. -/
def ms_drop : GroupMigrationState where
  is_in_scope := fun p => p == "A"
  get_target_principal := fun _ _ => none

/-- Record of the spec's remap scenario: ACLs `[(A, WRITE), (B, READ)]`. -/
def item_c2 : Permissions where
  object_id := "scope-a"
  object_type := "secrets"
  raw := [{ principal := "A", permission := "WRITE" },
          { principal := "B", permission := "READ" }]

/-- The deserialized entries of `item_c2`. -/
def item_c2_acls : List AclItem :=
  [{ principal := "A", permission := .WRITE },
   { principal := "B", permission := .READ }]

/-- One-scope workspace snapshot for the crawler witness. -/
def ws_fixture : WorkspaceClientSecrets where
  list_scopes := [{ name := "sc1" }]
  list_acls := fun _ => [{ principal := "alice", permission := .READ }]

/- Helper lemmas. -/

/-- Serializing one entry and parsing it back recovers the entry. -/
theorem from_dict_as_dict (a : AclItem) : AclItem.from_dict a.as_dict = some a := by
  obtain ⟨p, perm⟩ := a
  cases perm <;> rfl

/-- Serializing a list of entries and parsing it back recovers the list. -/
theorem deserialize_raw_map_as_dict (l : List AclItem) :
    deserialize_raw (l.map AclItem.as_dict) = some l := by
  induction l with
  | nil => rfl
  | cons a l ih => simp [deserialize_raw, from_dict_as_dict, ih]

/-- Deserialization keeps every entry's principal (in order). -/
theorem deserialize_raw_principals :
    ∀ (raw : List AclDict) (acls : List AclItem), deserialize_raw raw = some acls →
      acls.map AclItem.principal = raw.map AclDict.principal := by
  intro raw
  induction raw with
  | nil =>
    intro acls h
    simp [deserialize_raw] at h
    simp [← h]
  | cons d ds ih =>
    intro acls h
    unfold deserialize_raw at h
    cases hfd : AclItem.from_dict d with
    | none => rw [hfd] at h; simp at h
    | some a =>
      rw [hfd] at h
      cases hds : deserialize_raw ds with
      | none => rw [hds] at h; simp at h
      | some rest =>
        rw [hds] at h
        simp only [Option.some_inj] at h
        have hap : a.principal = d.principal := by
          unfold AclItem.from_dict at hfd
          cases hov : AclPermission.ofValue d.permission <;> rw [hov] at hfd
          · simp at hfd
          · simp only [Option.some_inj] at hfd
            rw [← hfd]
        rw [← h]
        simp [hap, ih rest hds]

/-- Leaving the loop body `num_retries` times on a `none` read advances the
poll index and spends the retries one for one. -/
theorem inflight_go_skip (poll : Nat → Option AclPermission) (s g : String)
    (e : AclPermission) (n : Nat) :
    ∀ (k i r : Nat), (∀ j, j < k → poll (i + j) = none) →
      inflight_go poll s g e n (r + k) i = inflight_go poll s g e n r (i + k) := by
  intro k
  induction k with
  | zero => intro i r _; rfl
  | succ k ih =>
    intro i r h
    have h0 : poll i = none := by simpa using h 0 (Nat.succ_pos k)
    have hshift : ∀ j, j < k → poll ((i + 1) + j) = none := by
      intro j hj
      have hpj := h (j + 1) (Nat.succ_lt_succ hj)
      have harith : i + (j + 1) = (i + 1) + j := by omega
      rw [harith] at hpj
      exact hpj
    calc inflight_go poll s g e n (r + (k + 1)) i
        = inflight_go poll s g e n ((r + k) + 1) i := by rw [Nat.add_succ]
      _ = inflight_go poll s g e n (r + k) (i + 1) := by simp [inflight_go, h0]
      _ = inflight_go poll s g e n r ((i + 1) + k) := ih (i + 1) r hshift
      _ = inflight_go poll s g e n r (i + (k + 1)) := by
          rw [show (i + 1) + k = i + (k + 1) from by omega]

/-- A `some` read that matches the expectation returns at once. -/
theorem inflight_go_some_eq (poll : Nat → Option AclPermission) (s g : String)
    (e : AclPermission) (n r i : Nat) (h : poll i = some e) :
    inflight_go poll s g e n (r + 1) i = (CheckOutcome.ok, i + 1) := by
  simp [inflight_go, h]

/-- A `some` read that differs from the expectation raises at once. -/
theorem inflight_go_some_ne (poll : Nat → Option AclPermission) (s g : String)
    (e a : AclPermission) (n r i : Nat) (h : poll i = some a) (hne : a ≠ e) :
    inflight_go poll s g e n (r + 1) i =
      (CheckOutcome.error (mismatch_msg a e), i + 1) := by
  simp [inflight_go, h, hne]

/- Claim theorems. -/

/-- C8: serializing any list of AclEntry values into a record's raw
payload (as the collector does) and deserializing it back (as the applier
does) yields an equal list in the same order. -/
theorem acl_roundtrip (l : List AclItem) :
    deserialize_raw (l.map AclItem.as_dict) = some l :=
  deserialize_raw_map_as_dict l

/-- C7: every record produced by a collector task has
`object_type = "secrets"`, the scope's name as `object_id`, and a raw
payload that deserializes to the ACL list returned for that scope at
capture time. -/
theorem crawler_record_shape (ws : WorkspaceClientSecrets) (rec : Permissions)
    (h : rec ∈ get_crawler_tasks ws) :
    rec.object_type = "secrets" ∧
    ∃ scope ∈ ws.list_scopes, rec.object_id = scope.name ∧
      deserialize_raw rec.raw = some (ws.list_acls scope.name) := by
  unfold get_crawler_tasks at h
  obtain ⟨scope, hs, rfl⟩ := List.mem_map.mp h
  exact ⟨rfl, scope, hs, rfl, deserialize_raw_map_as_dict (ws.list_acls scope.name)⟩

/-- C7 witness: the shape holds for the record of the one-scope fixture. -/
theorem crawler_record_shape_witness :
    (crawler_task ws_fixture { name := "sc1" }).object_type = "secrets" ∧
    ∃ scope ∈ ws_fixture.list_scopes,
      (crawler_task ws_fixture { name := "sc1" }).object_id = scope.name ∧
      deserialize_raw (crawler_task ws_fixture { name := "sc1" }).raw =
        some (ws_fixture.list_acls scope.name) :=
  crawler_record_shape ws_fixture (crawler_task ws_fixture { name := "sc1" }) (by decide)

/-- C5: a record whose deserialized entries contain no in-scope principal
yields no apply task. -/
theorem no_in_scope_principal_no_task (item : Permissions) (ms : GroupMigrationState)
    (dest : Destination) (acls : List AclItem)
    (hdes : deserialize_raw item.raw = some acls)
    (h : ∀ a ∈ acls, ms.is_in_scope a.principal = false) :
    get_apply_task item ms dest = none := by
  have hrel : is_item_relevant item ms = false := by
    unfold is_item_relevant
    rw [List.any_eq_false]
    intro d hd
    have hp := deserialize_raw_principals item.raw acls hdes
    have hmem : d.principal ∈ acls.map AclItem.principal := by
      rw [hp]
      exact List.mem_map_of_mem AclDict.principal hd
    obtain ⟨a, ha, hap⟩ := List.mem_map.mp hmem
    rw [← hap]
    simp [h a ha]
  simp [get_apply_task, hrel]

/-- C5 witness: with `is_in_scope` constantly false, a concrete one-entry
record yields no task. -/
theorem no_in_scope_principal_no_task_witness :
    get_apply_task
      { object_id := "sc", object_type := "secrets",
        raw := [{ principal := "bob", permission := "READ" }] }
      { is_in_scope := fun _ => false, get_target_principal := fun _ _ => none }
      "backup" = none :=
  no_in_scope_principal_no_task _ _ "backup"
    [{ principal := "bob", permission := .READ }] (by decide) (by decide)

/-- C10: a record whose raw payload deserializes to the empty ACL list
yields no apply task. -/
theorem empty_acls_no_task (item : Permissions) (ms : GroupMigrationState)
    (dest : Destination) (h : deserialize_raw item.raw = some []) :
    get_apply_task item ms dest = none := by
  have hp := deserialize_raw_principals item.raw [] h
  have hraw : item.raw = [] := by
    have h2 : List.map AclDict.principal item.raw = [] := by simpa using hp.symm
    exact List.map_eq_nil_iff.mp h2
  simp [get_apply_task, is_item_relevant, hraw]

/-- C10 witness: an empty-payload record yields no task even when every
principal is in scope. -/
theorem empty_acls_no_task_witness :
    get_apply_task { object_id := "sc", object_type := "secrets", raw := [] }
      { is_in_scope := fun _ => true, get_target_principal := fun _ _ => none }
      "backup" = none :=
  empty_acls_no_task _ _ "backup" rfl

/-- C1: when every one of the 5 polls finds no permission for the
principal on the scope, the put-and-verify check fails after exactly 5
polls with the exhausted-retries message naming the principal, the scope
and the attempt count. -/
theorem inflight_exhausted_after_five (acl_state : Nat → List AclItem)
    (scope_name group_name : String) (expected : AclPermission)
    (h : ∀ i, i < 5 → secret_scope_permission (acl_state i) group_name = none) :
    inflight_check acl_state scope_name group_name expected 5 =
      (CheckOutcome.error (exhausted_msg group_name scope_name 5), 5) := by
  unfold inflight_check
  have hskip := inflight_go_skip
    (fun i => secret_scope_permission (acl_state i) group_name)
    scope_name group_name expected 5 5 0 0
    (by intro j hj; simpa using h j hj)
  exact hskip.trans rfl

/-- C1 witness: five empty reads exhaust the retries at poll count 5. -/
theorem inflight_exhausted_after_five_witness :
    inflight_check (fun _ => []) "scp" "grp" AclPermission.WRITE 5 =
      (CheckOutcome.error (exhausted_msg "grp" "scp" 5), 5) :=
  inflight_exhausted_after_five (fun _ => []) "scp" "grp" AclPermission.WRITE
    (fun _ _ => rfl)

/-- C3: if the first poll that observes a permission (all earlier polls
observed none) sees a value different from the expected one, the check
raises the mismatch error on that very poll, with no further polls. -/
theorem inflight_mismatch_fatal (acl_state : Nat → List AclItem)
    (scope_name group_name : String) (expected applied : AclPermission) (k : Nat)
    (hk : k < 5)
    (hnone : ∀ i, i < k → secret_scope_permission (acl_state i) group_name = none)
    (hsome : secret_scope_permission (acl_state k) group_name = some applied)
    (hne : applied ≠ expected) :
    inflight_check acl_state scope_name group_name expected 5 =
      (CheckOutcome.error (mismatch_msg applied expected), k + 1) := by
  unfold inflight_check
  have hskip := inflight_go_skip
    (fun i => secret_scope_permission (acl_state i) group_name)
    scope_name group_name expected 5 k 0 (5 - k)
    (by intro j hj; simpa using hnone j hj)
  have h5 : (5 - k) + k = 5 := by omega
  rw [h5] at hskip
  have hk1 : 5 - k = (4 - k) + 1 := by omega
  rw [hk1] at hskip
  rw [hskip, Nat.zero_add]
  exact inflight_go_some_ne _ scope_name group_name expected applied 5 (4 - k) k
    hsome hne

/-- C3 witness: a first-poll read of READ against expected WRITE raises
the mismatch error at poll count 1. -/
theorem inflight_mismatch_fatal_witness :
    inflight_check (fun _ => [{ principal := "grp", permission := AclPermission.READ }])
      "scp" "grp" AclPermission.WRITE 5 =
      (CheckOutcome.error (mismatch_msg AclPermission.READ AclPermission.WRITE), 1) :=
  inflight_mismatch_fatal
    (fun _ => [{ principal := "grp", permission := AclPermission.READ }])
    "scp" "grp" AclPermission.WRITE AclPermission.READ 0 (by decide)
    (fun i h => absurd h (Nat.not_lt_zero i)) (by decide) (by decide)

/-- C6: if the first poll that observes a permission (all earlier polls
observed none) sees exactly the expected value, the check returns
normally on that poll; in particular a match on the first poll succeeds
at poll count 1. -/
theorem inflight_match_succeeds (acl_state : Nat → List AclItem)
    (scope_name group_name : String) (expected : AclPermission) (k : Nat)
    (hk : k < 5)
    (hnone : ∀ i, i < k → secret_scope_permission (acl_state i) group_name = none)
    (hsome : secret_scope_permission (acl_state k) group_name = some expected) :
    inflight_check acl_state scope_name group_name expected 5 =
      (CheckOutcome.ok, k + 1) := by
  unfold inflight_check
  have hskip := inflight_go_skip
    (fun i => secret_scope_permission (acl_state i) group_name)
    scope_name group_name expected 5 k 0 (5 - k)
    (by intro j hj; simpa using hnone j hj)
  have h5 : (5 - k) + k = 5 := by omega
  rw [h5] at hskip
  have hk1 : 5 - k = (4 - k) + 1 := by omega
  rw [hk1] at hskip
  rw [hskip, Nat.zero_add]
  exact inflight_go_some_eq _ scope_name group_name expected 5 (4 - k) k hsome

/-- C6 witness: a matching read on the first poll returns normally at
poll count 1. -/
theorem inflight_match_succeeds_witness :
    inflight_check (fun _ => [{ principal := "grp", permission := AclPermission.WRITE }])
      "scp" "grp" AclPermission.WRITE 5 = (CheckOutcome.ok, 1) :=
  inflight_match_succeeds
    (fun _ => [{ principal := "grp", permission := AclPermission.WRITE }])
    "scp" "grp" AclPermission.WRITE 0 (by decide)
    (fun i h => absurd h (Nat.not_lt_zero i)) (by decide)

/-- C2 counterexample: on the spec's remap scenario — ACLs
`[(A, WRITE), (B, READ)]`, `A` in scope mapping to `A2`, `B` out of scope —
the built task does NOT write exactly the single ACL `(A2, WRITE)`: the
out-of-scope entry `B` is passed through into the write list, so `B`'s
original ACL is re-written as well. -/
theorem single_write_claim_counterexample :
    get_apply_task item_c2 ms_c2 "backup" ≠
      some [{ principal := "A2", permission := AclPermission.WRITE }] := by
  decide

/-- C2 amended: on that scenario the built task writes exactly two ACLs in
order — the remapped `(A2, WRITE)`, then `B`'s original `(B, READ)`
re-written unchanged (out-of-scope entries pass through into the write
list rather than being skipped). -/
theorem remap_then_passthrough_writes :
    get_apply_task item_c2 ms_c2 "backup" =
      some [{ principal := "A2", permission := AclPermission.WRITE },
            { principal := "B", permission := AclPermission.READ }] := by
  decide

/-- C4: the remap pass treats each deserialized entry by exactly three
cases — out-of-scope entries are kept unchanged, in-scope entries with no
resolvable target are dropped, and in-scope entries with a target are
replaced by the target principal carrying the original permission — and
`get_apply_task` applies exactly this per-entry pass to the deserialized
entries of a relevant record. -/
theorem remap_entry_cases (ms : GroupMigrationState) (dest : Destination) :
    (∀ acl : AclItem, ms.is_in_scope acl.principal = false →
      remap_entry ms dest acl = some acl) ∧
    (∀ acl : AclItem, ms.is_in_scope acl.principal = true →
      ms.get_target_principal acl.principal dest = none →
      remap_entry ms dest acl = none) ∧
    (∀ (acl : AclItem) (tp : String), ms.is_in_scope acl.principal = true →
      ms.get_target_principal acl.principal dest = some tp →
      remap_entry ms dest acl =
        some { principal := tp, permission := acl.permission }) ∧
    (∀ (item : Permissions) (acls : List AclItem), is_item_relevant item ms = true →
      deserialize_raw item.raw = some acls →
      get_apply_task item ms dest = some (acls.filterMap (remap_entry ms dest))) := by
  refine ⟨?_, ?_, ?_, ?_⟩
  · intro acl h
    simp [remap_entry, h]
  · intro acl h1 h2
    simp [remap_entry, h1, h2]
  · intro acl tp h1 h2
    simp [remap_entry, h1, h2]
  · intro item acls h1 h2
    simp [get_apply_task, h1, h2]

/-- C4 witness: the three per-entry cases and the record-level equation,
each at a concrete input. -/
theorem remap_entry_cases_witness :
    remap_entry ms_c2 "backup" { principal := "B", permission := AclPermission.READ } =
      some { principal := "B", permission := AclPermission.READ } ∧
    remap_entry ms_drop "backup" { principal := "A", permission := AclPermission.READ } =
      none ∧
    remap_entry ms_c2 "backup" { principal := "A", permission := AclPermission.WRITE } =
      some { principal := "A2", permission := AclPermission.WRITE } ∧
    get_apply_task item_c2 ms_c2 "backup" =
      some (item_c2_acls.filterMap (remap_entry ms_c2 "backup")) :=
  ⟨(remap_entry_cases ms_c2 "backup").1 _ (by decide),
   (remap_entry_cases ms_drop "backup").2.1 _ (by decide) (by decide),
   (remap_entry_cases ms_c2 "backup").2.2.1 _ "A2" (by decide) (by decide),
   (remap_entry_cases ms_c2 "backup").2.2.2 item_c2 item_c2_acls (by decide) (by decide)⟩
